import Mathlib

/-!
Verification of the parser_maps_pro scraping pipeline core.

This file is a shallow embedding, in Lean 4, of the parts of the program
that the specification's claims are about:

* `core/utils.py`            — `org_id_from_url` (organization-id derivation);
* `core/db_sqlite.py`        — the SQLite Job Store (`SQLiteDB`);
* `core/db_pg.py`            — the Postgres Job Store (`PostgresDB`);
* `providers/yandex/link_collector.py` — `collect_links_from_list`
  (scroll-driven link harvesting with idle-based termination and captcha
  detection);
* `app/main.py`              — the method surface used by the HTTP endpoints.

Tables are embedded as Lean lists of records (list order = insertion order,
ids are assigned by an AUTOINCREMENT counter), SQL statements as pure
functions on those lists, and timestamps (`datetime('now')` / `NOW()`) as an
explicit `now : Nat` argument threaded to every call that writes one.
-/

namespace ParserMapsPro

/-! ## `core/utils.py` — organization-id derivation

`org_id_from_url` (utils.py:16-26) tries three regular expressions in order:

  1. `re.search(r"/org/[^/]+/(\d+)/", url)`
  2. `re.search(r"/org/(\d+)/", url)`
  3. `re.search(r"/(\d+)/?$", url)`

and returns the first group of the first one that matches, else `""`.

For these particular patterns Python's leftmost backtracking search has a
simple closed form.  In pattern 1 the piece `[^/]+` cannot cross a `/`, and
the character after it must be `/`, so it is forced to be exactly one whole
nonempty path segment; likewise `(\d+)` followed by a literal `/` is forced
to be a whole nonempty all-digit segment (backtracking to fewer digits always
leaves a digit, never `/`, as the next character).  In pattern 3, after the
greedy `\d+` the tail `/?$` accepts exactly the empty string or a single
final `/` (URLs contain no newline, so `$` is end-of-string here).
The functions below scan candidate start positions left to right, which is
exactly `re.search`'s order of match attempts.
-/

/-- Consume the literal prefix `lit` from `l`, returning the rest. -/
def dropLit : List Char → List Char → Option (List Char)
  | [], l => some l
  | _ :: _, [] => none
  | c :: cs, x :: xs => if c = x then dropLit cs xs else none

/-- Attempt to match `/org/[^/]+/(\d+)/` at the start of `l`;
on success return the digits group. -/
def matchOrg1At (l : List Char) : Option (List Char) :=
  match dropLit "/org/".data l with
  | none => none
  | some r =>
    let seg1 := r.takeWhile (fun c => c ≠ '/')
    if seg1 = [] then none
    else
      match dropLit ['/'] (r.drop seg1.length) with
      | none => none
      | some r2 =>
        let d := r2.takeWhile Char.isDigit
        if d = [] then none
        else
          match (r2.drop d.length).head? with
          | some '/' => some d
          | _ => none

/-- Attempt to match `/org/(\d+)/` at the start of `l`. -/
def matchOrg2At (l : List Char) : Option (List Char) :=
  match dropLit "/org/".data l with
  | none => none
  | some r =>
    let d := r.takeWhile Char.isDigit
    if d = [] then none
    else
      match (r.drop d.length).head? with
      | some '/' => some d
      | _ => none

/-- Attempt to match `/(\d+)/?$` at the start of `l` (the match must reach
the end of the string, up to one optional final `/`). -/
def matchTrailAt (l : List Char) : Option (List Char) :=
  match l with
  | '/' :: rest =>
    let d := rest.takeWhile Char.isDigit
    if d = [] then none
    else
      let tail := rest.drop d.length
      if tail = [] ∨ tail = ['/'] then some d else none
  | _ => none

/-- `re.search`: try the matcher at every start position, left to right. -/
def searchAt (m : List Char → Option (List Char)) : List Char → Option (List Char)
  | [] => m []
  | c :: cs =>
    match m (c :: cs) with
    | some d => some d
    | none => searchAt m cs

/-- `org_id_from_url` (core/utils.py:16-26). -/
def org_id_from_url (url : String) : String :=
  if url = "" then ""
  else
    match searchAt matchOrg1At url.data with
    | some d => ⟨d⟩
    | none =>
      match searchAt matchOrg2At url.data with
      | some d => ⟨d⟩
      | none =>
        match searchAt matchTrailAt url.data with
        | some d => ⟨d⟩
        | none => ""

/-! ## Job Store data model

The `tasks` table (db_sqlite.py:11-26 / db_pg.py:14-29).  A table is a
`List Task` in insertion order; `id` is the AUTOINCREMENT / BIGSERIAL key.
`last_error` is a nullable TEXT column, hence `Option String`.
-/

/-- The TEXT values stored in the `status` column. -/
inductive Status where
  | pending
  | running
  | retry
  | done
  | error
  | waitcaptcha
deriving DecidableEq, Repr

/-- One row of the `tasks` table. -/
structure Task where
  id : Nat
  manager : String
  region : String
  city : String
  mode : String
  query_key : String
  query_ru : String
  category_path : String
  domain_pref : String
  status : Status
  attempts : Nat
  last_error : Option String
  created_at : Nat
  updated_at : Nat
deriving DecidableEq, Repr

/-- The task fields supplied by a caller of `add_tasks` (one dict of the
`tasks` argument, db_sqlite.py:122-148 / db_pg.py:134-158). -/
structure TaskInput where
  manager : String
  region : String
  city : String
  mode : String
  query_key : String
  query_ru : String
  category_path : String
  domain_pref : String
deriving DecidableEq, Repr

/-- The next AUTOINCREMENT id: one more than the largest id ever used; with
no deletions in the model, one more than the largest id present (1 on an
empty table). -/
def nextId (ts : List Task) : Nat :=
  ts.foldl (fun m t => max m t.id) 0 + 1

/-- One `INSERT INTO tasks(...) VALUES(..., 'PENDING')` of `add_tasks`
(db_sqlite.py:129-144 / db_pg.py:139-154): a fresh row with status PENDING,
attempts 0 (column default), NULL last_error, both timestamps `now`. -/
def insertTaskRow (ts : List Task) (inp : TaskInput) (now : Nat) : List Task :=
  ts ++ [{ id := nextId ts
           manager := inp.manager
           region := inp.region
           city := inp.city
           mode := inp.mode
           query_key := inp.query_key
           query_ru := inp.query_ru
           category_path := inp.category_path
           domain_pref := inp.domain_pref
           status := Status.pending
           attempts := 0
           last_error := none
           created_at := now
           updated_at := now }]

/-- `add_tasks` (db_sqlite.py:122-148 / db_pg.py:134-158): bulk insert.
(The Python function also returns `len(tasks)`; only the table matters to
the claims.) -/
def add_tasks (ts : List Task) (inps : List TaskInput) (now : Nat) : List Task :=
  inps.foldl (fun acc i => insertTaskRow acc i now) ts

/-! ## Claiming a link task

SQLite (db_sqlite.py:150-180): a `SELECT ... ORDER BY id ASC LIMIT 1` over
`mode LIKE '%LINKS%' OR mode LIKE '%MAPSCAN%'`, `status IN
('PENDING','RETRY')`, `attempts < ?`; then a separate
`UPDATE tasks SET status='RUNNING', attempts=attempts+1, updated_at=... WHERE id=?`;
then a re-`SELECT` of the row by id, which is what is returned.

Postgres (db_pg.py:160-190): the same shape with `mode LIKE 'LINKS%'` and
`FOR UPDATE SKIP LOCKED` on the SELECT, but the dict returned to the caller
is the row as fetched by the SELECT, i.e. before the UPDATE ran.

SQLite `LIKE` is case-insensitive over ASCII, so the SQLite mode test
uppercases first; Postgres `LIKE` is case-sensitive.
-/

/-- ASCII-uppercase a string (SQLite `LIKE` folds ASCII case). -/
def asciiUpper (s : String) : String :=
  ⟨s.data.map Char.toUpper⟩

/-- `matchesAt pat s`: `s` starts with `pat` (the anchored part of a SQL
`LIKE 'PAT%'` test). -/
def matchesAt : List Char → List Char → Bool
  | [], _ => true
  | _ :: _, [] => false
  | c :: cs, x :: xs => c == x && matchesAt cs xs

/-- `occursIn pat s`: `pat` occurs as a contiguous substring of `s`
(a SQL `LIKE '%PAT%'` test). -/
def occursIn (pat : List Char) : List Char → Bool
  | [] => matchesAt pat []
  | x :: xs => matchesAt pat (x :: xs) || occursIn pat xs

/-- The SQLite WHERE clause of `pick_next_task_for_links`
(db_sqlite.py:158-160): `(mode LIKE '%LINKS%' OR mode LIKE '%MAPSCAN%') AND
status IN ('PENDING','RETRY') AND attempts < ?`. -/
def sqliteLinkEligible (maxAttempts : Nat) (t : Task) : Bool :=
  (occursIn "LINKS".data (asciiUpper t.mode).data
      || occursIn "MAPSCAN".data (asciiUpper t.mode).data)
    && (t.status == Status.pending || t.status == Status.retry)
    && decide (t.attempts < maxAttempts)

/-- The Postgres WHERE clause of `pick_next_task_for_links`
(db_pg.py:168-170): `mode LIKE 'LINKS%' AND status IN ('PENDING','RETRY')
AND attempts < %s`. -/
def pgLinkEligible (maxAttempts : Nat) (t : Task) : Bool :=
  matchesAt "LINKS".data t.mode.data
    && (t.status == Status.pending || t.status == Status.retry)
    && decide (t.attempts < maxAttempts)

/-- One step of scanning for the least-id row. -/
def minIdStep (acc : Option Task) (t : Task) : Option Task :=
  match acc with
  | none => some t
  | some b => if t.id < b.id then some t else some b

/-- `SELECT ... ORDER BY id ASC LIMIT 1`: the eligible row with the least
id, `none` if no row is eligible. -/
def selectMinId (p : Task → Bool) (ts : List Task) : Option Task :=
  (ts.filter p).foldl minIdStep none

/-- The claim UPDATE (db_sqlite.py:170-173 / db_pg.py:183-186):
`UPDATE tasks SET status='RUNNING', attempts=attempts+1, updated_at=<now>
WHERE id=<i>`. -/
def updateRunning (ts : List Task) (i : Nat) (now : Nat) : List Task :=
  ts.map fun t =>
    if t.id = i then
      { t with status := Status.running, attempts := t.attempts + 1, updated_at := now }
    else t

/-- `SELECT * FROM tasks WHERE id=<i>` fetching one row
(db_sqlite.py:176-177). -/
def getById (ts : List Task) (i : Nat) : Option Task :=
  ts.find? fun t => t.id == i

/-- `SQLiteDB.pick_next_task_for_links` (db_sqlite.py:150-180): select the
oldest eligible row, transition it to RUNNING with attempts+1, then re-fetch
the row by id and return the re-fetched (post-update) row.  The SELECT and
the UPDATE are two separate SQLite statements; see the C2 analysis for what
happens when two callers interleave them. -/
def sqlite_pick_next_task_for_links (ts : List Task) (maxAttempts : Nat) (now : Nat) :
    List Task × Option Task :=
  match selectMinId (sqliteLinkEligible maxAttempts) ts with
  | none => (ts, none)
  | some row =>
    let ts1 := updateRunning ts row.id now
    (ts1, getById ts1 row.id)

/-- `PostgresDB.pick_next_task_for_links` (db_pg.py:160-190): the same
select-then-update, executed inside one transaction whose
`FOR UPDATE SKIP LOCKED` row lock makes it atomic against other claimants —
but the dict handed back to the caller is `dict(row)` of the row as fetched
by the SELECT, i.e. the pre-update snapshot. -/
def pg_pick_next_task_for_links (ts : List Task) (maxAttempts : Nat) (now : Nat) :
    List Task × Option Task :=
  match selectMinId (pgLinkEligible maxAttempts) ts with
  | none => (ts, none)
  | some row => (updateRunning ts row.id now, some row)

/-! ## Status-setting operations -/

/-- The shared shape of `UPDATE tasks SET status=<st>, last_error=<msg>,
updated_at=<now> WHERE id=<i>`: unconditional on the current row state. -/
def setTaskStatusMsg (st : Status) (msg : Option String) (now : Nat) (i : Nat)
    (ts : List Task) : List Task :=
  ts.map fun t =>
    if t.id = i then { t with status := st, last_error := msg, updated_at := now }
    else t

/-- SQLite worker-tagged message, db_sqlite.py:194 / 206:
`msg = f"{worker}: {err}" if worker else (err or "")`. -/
def sqliteTagMsg (worker err : String) : String :=
  if worker ≠ "" then worker ++ ": " ++ err else err

/-- Postgres worker-tagged message, db_pg.py:205 / 218:
`msg = (f"[{worker}] " if worker else "") + (err or "")`. -/
def pgTagMsg (worker err : String) : String :=
  (if worker ≠ "" then "[" ++ worker ++ "] " else "") ++ err

/-- `SQLiteDB.set_task_links_done` (db_sqlite.py:182-191): status DONE and
the informational message `inserted_links=<n>` (not truncated). -/
def sqlite_set_task_links_done (ts : List Task) (i : Nat) (inserted : Nat) (now : Nat) :
    List Task :=
  setTaskStatusMsg Status.done (some ("inserted_links=" ++ toString inserted)) now i ts

/-- `SQLiteDB.set_task_waitcaptcha` (db_sqlite.py:193-203): status
WAITCAPTCHA, message tagged and truncated to 2000 characters. -/
def sqlite_set_task_waitcaptcha (ts : List Task) (i : Nat) (err worker : String) (now : Nat) :
    List Task :=
  setTaskStatusMsg Status.waitcaptcha (some ((sqliteTagMsg worker err).take 2000)) now i ts

/-- `SQLiteDB.set_task_error` (db_sqlite.py:205-215): status ERROR, message
tagged and truncated to 2000 characters. -/
def sqlite_set_task_error (ts : List Task) (i : Nat) (err worker : String) (now : Nat) :
    List Task :=
  setTaskStatusMsg Status.error (some ((sqliteTagMsg worker err).take 2000)) now i ts

/-- `PostgresDB.set_task_links_done` (db_pg.py:192-202). -/
def pg_set_task_links_done (ts : List Task) (i : Nat) (inserted : Nat) (now : Nat) :
    List Task :=
  setTaskStatusMsg Status.done (some ("inserted_links=" ++ toString inserted)) now i ts

/-- `PostgresDB.set_task_waitcaptcha` (db_pg.py:204-215). -/
def pg_set_task_waitcaptcha (ts : List Task) (i : Nat) (err worker : String) (now : Nat) :
    List Task :=
  setTaskStatusMsg Status.waitcaptcha (some ((pgTagMsg worker err).take 2000)) now i ts

/-- `PostgresDB.set_task_error` (db_pg.py:217-228). -/
def pg_set_task_error (ts : List Task) (i : Nat) (err worker : String) (now : Nat) :
    List Task :=
  setTaskStatusMsg Status.error (some ((pgTagMsg worker err).take 2000)) now i ts

/-- `SQLiteDB.retry_task` (db_sqlite.py:217-226):
`UPDATE tasks SET status='RETRY', last_error=NULL, updated_at=... WHERE id=?`
— note: no `attempts=0`. -/
def sqlite_retry_task (ts : List Task) (i : Nat) (now : Nat) : List Task :=
  ts.map fun t =>
    if t.id = i then { t with status := Status.retry, last_error := none, updated_at := now }
    else t

/-- `PostgresDB.retry_task` (db_pg.py:230-240):
`UPDATE tasks SET status='RETRY', attempts=0, last_error=NULL, updated_at=...
WHERE id=%s`. -/
def pg_retry_task (ts : List Task) (i : Nat) (now : Nat) : List Task :=
  ts.map fun t =>
    if t.id = i then
      { t with status := Status.retry, attempts := 0, last_error := none, updated_at := now }
    else t

/-! ## Two interleaved SQLite claimants

SQLite serializes individual statements, but `pick_next_task_for_links`
issues its SELECT and its UPDATE as two separate statements on an
autocommitting connection (db_sqlite.py:154-174), so a second caller's
SELECT can run between them.  `sqliteTwoCallers` runs the schedule
A.SELECT; B.SELECT; A.UPDATE; A.refetch; B.UPDATE; B.refetch, built from
exactly the statement-level pieces of `sqlite_pick_next_task_for_links`,
and returns what each caller's invocation returns. -/
def sqliteTwoCallers (ts : List Task) (maxAttempts nowA nowB : Nat) :
    Option Task × Option Task :=
  match selectMinId (sqliteLinkEligible maxAttempts) ts with
  | none => (none, none)
  | some ra =>
    match selectMinId (sqliteLinkEligible maxAttempts) ts with
    | none => (none, none)
    | some rb =>
      let ts1 := updateRunning ts ra.id nowA
      let resA := getById ts1 ra.id
      let ts2 := updateRunning ts1 rb.id nowB
      let resB := getById ts2 rb.id
      (resA, resB)

/-! ## The `links` table and `insert_links`

One row of the `links` table (db_sqlite.py:28-41 / db_pg.py:31-43), with
`UNIQUE(org_id)` and conflict-ignore semantics.  The AUTOINCREMENT id and
`created_at` columns play no role in any claim and are represented by the
list position / elided. -/
structure Link where
  task_id : Nat
  org_id : String
  url : String
  source_mode : String
  city : String
  region : String
  manager : String
  query_ru : String
  category_path : String
deriving DecidableEq, Repr

/-- Is a row with this `org_id` already present (the `UNIQUE(org_id)`
constraint consulted by `INSERT OR IGNORE` / `ON CONFLICT DO NOTHING`)? -/
def hasOrgId (ls : List Link) (oid : String) : Bool :=
  ls.any fun l => l.org_id == oid

/-- The row built by one INSERT of `insert_links`
(db_sqlite.py:280-296 / db_pg.py:287-304): the denormalized copy of the
owning task's fields plus the derived organization id. -/
def mkLink (task : Task) (u oid sourceMode : String) : Link :=
  { task_id := task.id
    org_id := oid
    url := u
    source_mode := sourceMode
    city := task.city
    region := task.region
    manager := task.manager
    query_ru := task.query_ru
    category_path := task.category_path }

/-- One iteration of the `insert_links` URL loop (db_sqlite.py:276-298 /
db_pg.py:283-306): derive the organization id with `org_id_from_url`; `if
not oid: continue` when it is empty; `INSERT OR IGNORE` / `ON CONFLICT DO
NOTHING` keyed on `org_id`; `inserted += 1` only when the INSERT reported
`rowcount == 1`, i.e. actually inserted a row. -/
def insertLinkStep (task : Task) (sourceMode : String) (acc : List Link × Nat) (u : String) :
    List Link × Nat :=
  if org_id_from_url u = "" then acc
  else if hasOrgId acc.1 (org_id_from_url u) then acc
  else (acc.1 ++ [mkLink task u (org_id_from_url u) sourceMode], acc.2 + 1)

/-- `insert_links` (db_sqlite.py:266-302 / db_pg.py:276-310): run the URL
loop from `inserted = 0`; return the updated table and the count. -/
def insert_links (ls : List Link) (task : Task) (urls : List String) (sourceMode : String) :
    List Link × Nat :=
  urls.foldl (insertLinkStep task sourceMode) (ls, 0)

/-! ## The `orgs` table and `upsert_org` -/

/-- One row of the `orgs` table (db_sqlite.py:43-52 / db_pg.py:45-54);
`org_id` is the primary key. -/
structure Org where
  org_id : String
  name : String
  address : String
  website : String
  ypage : String
  phone : String
  social : String
  updated_at : Nat
deriving DecidableEq, Repr

/-- The field values passed to `upsert_org` (the `org` dict). -/
structure OrgFields where
  org_id : String
  name : String
  address : String
  website : String
  ypage : String
  phone : String
  social : String
deriving DecidableEq, Repr

/-- The row written by `upsert_org` at time `now`. -/
def mkOrg (f : OrgFields) (now : Nat) : Org :=
  { org_id := f.org_id
    name := f.name
    address := f.address
    website := f.website
    ypage := f.ypage
    phone := f.phone
    social := f.social
    updated_at := now }

/-- `upsert_org` (db_sqlite.py:323-351 / db_pg.py:331-360):
`INSERT INTO orgs(...) VALUES(..., <now>) ON CONFLICT(org_id) DO UPDATE SET`
every descriptive field from the excluded row and `updated_at=<now>`. -/
def upsert_org (os : List Org) (f : OrgFields) (now : Nat) : List Org :=
  if os.any (fun o => o.org_id == f.org_id) then
    os.map fun o => if o.org_id = f.org_id then mkOrg f now else o
  else
    os ++ [mkOrg f now]

/-- `o.org_id == id` as the row test used below. -/
def orgIdIs (i : String) (o : Org) : Bool :=
  o.org_id == i

/-- First `orgs` row with the given id. -/
def findOrg (os : List Org) (i : String) : Option Org :=
  os.find? (orgIdIs i)

/-! ## `providers/yandex/link_collector.py` — `collect_links_from_list`

The harvesting loop (link_collector.py:294-335) runs at most 4000 passes.
On each pass it first checks `is_captcha` and raises `CaptchaError` if it
holds; otherwise it adds every normalized organization URL currently visible
to the accumulated set, bumps an idle counter when the set size did not
grow (resetting it and the size watermark when it did), breaks once the
idle counter reaches `max_idle` (default 12), and otherwise scrolls and
sleeps before the next pass.

The browser is modelled as a `HarvestSession`: what matters to the loop is,
per pass index, the list of normalized organization URLs its anchors yield
(`a.link-overlay` hrefs after `_normalize_org_url`) and whether the captcha
indicator shows.  The result carries the accumulated links plus the number
of passes executed (instrumentation used to state the termination claim;
the Python function returns only the list). -/
structure HarvestSession where
  anchors : Nat → List String
  captcha : Nat → Bool

/-- `links.add(norm)` for every anchor of the pass: set-insertion into the
accumulated collection (kept as a list in first-seen order). -/
def addAll (links new : List String) : List String :=
  new.foldl (fun acc u => if u ∈ acc then acc else acc ++ [u]) links

/-- One pass of the harvesting loop, with `fuel` the remaining iterations of
`for _ in range(4000)`.  `Except.error ()` is the raised `CaptchaError` (it
carries no link list).  The Python body binds the grown set once; here
`addAll links (s.anchors pass)` is written out in each branch.  When the set
size equals the watermark `last_cnt` the idle counter is bumped, otherwise
it resets to 0 and the watermark becomes the new size; the loop then breaks
(returning the set) as soon as `idle >= max_idle`. -/
def collectAux (s : HarvestSession) (maxIdle : Nat) :
    Nat → Nat → Nat → Nat → List String → Except Unit (List String × Nat)
  | 0, pass, _, _, links => Except.ok (links, pass)
  | fuel + 1, pass, idle, lastCnt, links =>
    if s.captcha pass then Except.error ()
    else if (addAll links (s.anchors pass)).length = lastCnt then
      if maxIdle ≤ idle + 1 then Except.ok (addAll links (s.anchors pass), pass + 1)
      else collectAux s maxIdle fuel (pass + 1) (idle + 1) lastCnt (addAll links (s.anchors pass))
    else
      if maxIdle ≤ 0 then Except.ok (addAll links (s.anchors pass), pass + 1)
      else
        collectAux s maxIdle fuel (pass + 1) 0 (addAll links (s.anchors pass)).length
          (addAll links (s.anchors pass))

/-- `collect_links_from_list` (link_collector.py:294-335): loop from an
empty set with `idle = 0`, `last_cnt = 0` and the hard cap of 4000 passes. -/
def collect_links_from_list (s : HarvestSession) (maxIdle : Nat) :
    Except Unit (List String × Nat) :=
  collectAux s maxIdle 4000 0 0 0 []

/-- The set accumulated after the first `n` passes (before any idle test):
pass `k` contributes `s.anchors k`. -/
def harvestAcc (s : HarvestSession) : Nat → List String
  | 0 => []
  | n + 1 => addAll (harvestAcc s n) (s.anchors n)

/-! ## The Job Store method surface seen by `app/main.py`

`api_task_requeue` (app/main.py:334-337) executes
`db.requeue_task(id, reset_attempts=True, clear_links=True,
clear_sources=True)`.  These lists enumerate, verbatim, the methods defined
on the two Job Store classes (`class SQLiteDB`, db_sqlite.py:98-438, and
`class PostgresDB`, db_pg.py:113-436); attribute lookup on `db` succeeds
exactly for these names. -/
def sqliteDBMethodNames : List String :=
  ["__init__", "connect", "init", "add_tasks", "pick_next_task_for_links",
   "set_task_links_done", "set_task_waitcaptcha", "set_task_error",
   "retry_task", "requeue_all_tasks", "delete_task", "clear_tasks",
   "insert_links", "fetch_next_link", "upsert_org", "add_source",
   "stats", "list_tasks", "templates", "get_template_sql"]

/-- The methods defined on `class PostgresDB` (db_pg.py:113-436). -/
def pgDBMethodNames : List String :=
  ["__init__", "connect", "init", "add_tasks", "pick_next_task_for_links",
   "set_task_links_done", "set_task_waitcaptcha", "set_task_error",
   "retry_task", "requeue_all_tasks", "delete_task", "clear_tasks",
   "insert_links", "fetch_next_link", "upsert_org", "add_source",
   "stats", "list_tasks", "templates", "get_template_sql"]

/-- The attribute of `db` that `api_task_requeue` (app/main.py:336) calls. -/
def apiTaskRequeueCallee : String :=
  "requeue_task"

/-! ## Concrete sample data used by counterexamples and witnesses -/

/-- A link-discovery task row as `build_tasks` produces them
(core/config_loader.py:61-71): mode `LINKS_SEARCH`. -/
def sampleInput : TaskInput :=
  { manager := "m"
    region := "r"
    city := "Minsk"
    mode := "LINKS_SEARCH"
    query_key := "cafe"
    query_ru := "кафе"
    domain_pref := "auto"
    category_path := "" }

/-- A one-task store: `add_tasks` of `sampleInput` into an empty table at
time 0 (the freshly created task has id 1, status PENDING, attempts 0). -/
def sampleStore1 : List Task :=
  add_tasks [] [sampleInput] 0

/-- A two-task store with two eligible link tasks (ids 1 and 2). -/
def sampleStore2 : List Task :=
  add_tasks [] [sampleInput, { sampleInput with city := "Brest" }] 0

/-- A task that has failed twice: status ERROR, attempts 2. -/
def failedTask : Task :=
  { id := 1
    manager := "m"
    region := "r"
    city := "Minsk"
    mode := "LINKS_SEARCH"
    query_key := "cafe"
    query_ru := "кафе"
    category_path := ""
    domain_pref := "auto"
    status := Status.error
    attempts := 2
    last_error := some "links: boom"
    created_at := 0
    updated_at := 7 }

/-- A mocked harvesting session whose anchor set grows on passes 0, 1, 2 and
stops growing from pass 3 on; no captcha. -/
def idleDemoSession : HarvestSession :=
  { anchors := fun n => if n = 0 then ["a"] else if n = 1 then ["a", "b"] else ["a", "b", "c"]
    captcha := fun _ => false }

/-- A mocked harvesting session that reports a captcha indicator on pass 2
(after two completed scroll passes). -/
def captchaDemoSession : HarvestSession :=
  { anchors := fun _ => ["a"]
    captcha := fun n => n == 2 }

/-- The row `add_tasks` creates for input `inp` in an empty table at time
`now` (AUTOINCREMENT id 1). -/
def freshTask (inp : TaskInput) (now : Nat) : Task :=
  { id := 1
    manager := inp.manager
    region := inp.region
    city := inp.city
    mode := inp.mode
    query_key := inp.query_key
    query_ru := inp.query_ru
    category_path := inp.category_path
    domain_pref := inp.domain_pref
    status := Status.pending
    attempts := 0
    last_error := none
    created_at := now
    updated_at := now }

/-- `freshTask inp t0` after the claim UPDATE ran at time `t1`. -/
def claimedTask (inp : TaskInput) (t0 t1 : Nat) : Task :=
  { freshTask inp t0 with status := Status.running, attempts := 1, updated_at := t1 }

/-- A task that already completed: status DONE. -/
def doneTask : Task :=
  { failedTask with status := Status.done, attempts := 5, last_error := some "inserted_links=3" }

/-- A second, distinct task row (id 2). -/
def otherTask : Task :=
  { failedTask with id := 2, city := "Brest", status := Status.pending, attempts := 0 }

/-- Sample enrichment fields for the `orgs` table. -/
def sampleOrgFields : OrgFields :=
  { org_id := "111"
    name := "Cafe"
    address := "Minsk, X 1"
    website := "cafe.example"
    ypage := "https://yandex.by/maps/org/cafe/111/"
    phone := "+375-00"
    social := "vk" }

/-! ## Helper lemmas -/

theorem minIdStep_foldl_mem :
    ∀ (l : List Task) (acc : Option Task) (t : Task),
      l.foldl minIdStep acc = some t → acc = some t ∨ t ∈ l := by
  intro l
  induction l with
  | nil => intro acc t h; exact Or.inl h
  | cons a l ih =>
    intro acc t h
    rcases ih (minIdStep acc a) t h with h1 | h1
    · cases acc with
      | none =>
        simp only [minIdStep, Option.some.injEq] at h1
        exact Or.inr (h1 ▸ List.mem_cons_self a l)
      | some b =>
        simp only [minIdStep] at h1
        by_cases hlt : a.id < b.id
        · rw [if_pos hlt] at h1
          exact Or.inr ((Option.some.injEq _ _).mp h1 ▸ List.mem_cons_self a l)
        · rw [if_neg hlt] at h1
          exact Or.inl h1
    · exact Or.inr (List.mem_cons_of_mem a h1)

/-- A row returned by `SELECT ... WHERE <p> ORDER BY id ASC LIMIT 1` is in
the table and satisfies the WHERE clause. -/
theorem selectMinId_mem_sat {p : Task → Bool} {ts : List Task} {t : Task}
    (h : selectMinId p ts = some t) : t ∈ ts ∧ p t = true := by
  unfold selectMinId at h
  rcases minIdStep_foldl_mem _ _ _ h with h1 | h1
  · exact absurd h1 (by simp)
  · exact ⟨(List.mem_filter.mp h1).1, (List.mem_filter.mp h1).2⟩

/-- After the claim UPDATE, every row carrying the claimed id is RUNNING. -/
theorem updateRunning_status {ts : List Task} {i now : Nat} :
    ∀ t' ∈ updateRunning ts i now, t'.id = i → t'.status = Status.running := by
  intro t' ht' hid
  unfold updateRunning at ht'
  rcases List.mem_map.mp ht' with ⟨t, -, rfl⟩
  by_cases h : t.id = i
  · simp [h]
  · rw [if_neg h] at hid ⊢
    exact absurd hid h

/-- A row fetched by id has that id. -/
theorem getById_id {ts : List Task} {i : Nat} {t : Task}
    (h : getById ts i = some t) : t.id = i := by
  unfold getById at h
  simpa using List.find?_some h

/-- A row passing the SQLite claim WHERE clause is PENDING or RETRY. -/
theorem sqliteLinkEligible_status {maxA : Nat} {t : Task}
    (h : sqliteLinkEligible maxA t = true) :
    t.status = Status.pending ∨ t.status = Status.retry := by
  cases hs : t.status
  case pending => exact Or.inl rfl
  case retry => exact Or.inr rfl
  all_goals simp [sqliteLinkEligible, hs] at h

/-- A row passing the Postgres claim WHERE clause is PENDING or RETRY. -/
theorem pgLinkEligible_status {maxA : Nat} {t : Task}
    (h : pgLinkEligible maxA t = true) :
    t.status = Status.pending ∨ t.status = Status.retry := by
  cases hs : t.status
  case pending => exact Or.inl rfl
  case retry => exact Or.inr rfl
  all_goals simp [pgLinkEligible, hs] at h

/-! ## C5 — the requeue operation the endpoint needs does not exist -/

/-- C5: the claim asserts the Job Store provides `requeueTask` and that
`/api/task_requeue` invoking it completes successfully.  In fact neither
Job Store class defines the `requeue_task` attribute that `api_task_requeue`
(app/main.py:336) calls, so the call raises `AttributeError` instead of
completing: the endpoint cannot succeed on any input. -/
theorem claim_C5 :
    apiTaskRequeueCallee ∉ sqliteDBMethodNames ∧ apiTaskRequeueCallee ∉ pgDBMethodNames := by
  decide

/-! ## C6 — organization-id derivation -/

/-- C6: `org_id_from_url` tries `/org/<slug>/<digits>/`, `/org/<digits>/`,
then a trailing `/<digits>`, returning `""` when none matches (that order is
the definition of `org_id_from_url` above, read off utils.py:16-26); on the
spec's four scenario URLs it yields "123456", "123456", "123456", "". -/
theorem claim_C6 :
    org_id_from_url "https://example/maps/org/some-name/123456/" = "123456" ∧
    org_id_from_url "https://example/maps/org/123456/" = "123456" ∧
    org_id_from_url "https://example/maps/123456" = "123456" ∧
    org_id_from_url "https://example/maps/org/some-name/" = "" := by
  decide

/-! ## C1 — claim round-trip -/

/-- C1 counterexample: the claim says the task returned by
`claimNextLinkTask` has status RUNNING and attempts 1 in both backends.  On
a store holding exactly one fresh eligible task, the Postgres backend's
`pick_next_task_for_links` returns the pre-update snapshot: status PENDING
and attempts 0, not RUNNING and 1. -/
theorem claim_C1_cex :
    ((pg_pick_next_task_for_links sampleStore1 15 1).2.map
        (fun t => (t.status, t.attempts))) = some (Status.pending, 0) ∧
    ((Status.pending, (0 : Nat)) ≠ (Status.running, 1)) := by
  decide

/-- C1 (amended): `addTasks([T])` followed by `claimNextLinkTask` stores
the transition to RUNNING with attempts incremented to 1 (and a fresh
`updated_at`) in both backends before returning; the SQLite backend returns
the re-fetched updated row (equal to T except status=RUNNING, attempts=1,
updated_at), while the Postgres backend returns the pre-claim snapshot of T
(status PENDING, attempts 0). -/
theorem claim_C1 (inp : TaskInput) (t0 t1 maxA : Nat)
    (h1 : sqliteLinkEligible maxA (freshTask inp t0) = true)
    (h2 : pgLinkEligible maxA (freshTask inp t0) = true) :
    add_tasks [] [inp] t0 = [freshTask inp t0] ∧
    sqlite_pick_next_task_for_links (add_tasks [] [inp] t0) maxA t1 =
      ([claimedTask inp t0 t1], some (claimedTask inp t0 t1)) ∧
    pg_pick_next_task_for_links (add_tasks [] [inp] t0) maxA t1 =
      ([claimedTask inp t0 t1], some (freshTask inp t0)) := by
  have hadd : add_tasks [] [inp] t0 = [freshTask inp t0] := rfl
  refine ⟨hadd, ?_, ?_⟩
  · rw [hadd]
    unfold sqlite_pick_next_task_for_links selectMinId
    rw [List.filter_cons_of_pos h1]
    simp only [List.filter_nil, List.foldl_cons, List.foldl_nil, minIdStep]
    unfold updateRunning getById
    simp [freshTask, claimedTask]
  · rw [hadd]
    unfold pg_pick_next_task_for_links selectMinId
    rw [List.filter_cons_of_pos h2]
    simp only [List.filter_nil, List.foldl_cons, List.foldl_nil, minIdStep]
    unfold updateRunning
    simp [freshTask, claimedTask]

/-- C1 witness: the amended claim at the concrete sample task. -/
theorem claim_C1_witness :
    add_tasks [] [sampleInput] 0 = [freshTask sampleInput 0] ∧
    sqlite_pick_next_task_for_links (add_tasks [] [sampleInput] 0) 30 1 =
      ([claimedTask sampleInput 0 1], some (claimedTask sampleInput 0 1)) ∧
    pg_pick_next_task_for_links (add_tasks [] [sampleInput] 0) 30 1 =
      ([claimedTask sampleInput 0 1], some (freshTask sampleInput 0)) :=
  claim_C1 sampleInput 0 1 30 (by decide) (by decide)

/-! ## C2 — no double-claim -/

/-- C2 counterexample: the claim says no task is ever returned to two
concurrent callers.  SQLite's `pick_next_task_for_links` issues its SELECT
and its UPDATE as two separate serialized statements; under the interleaving
A.SELECT, B.SELECT, A.UPDATE, A.refetch, B.UPDATE, B.refetch on a store with
one eligible task, both callers are handed the task with id 1 while neither
has completed or failed it. -/
theorem claim_C2_cex :
    ((sqliteTwoCallers sampleStore1 30 1 2).1.map Task.id = some 1) ∧
    ((sqliteTwoCallers sampleStore1 30 1 2).2.map Task.id = some 1) := by
  decide

/-- C2 (amended): the Postgres backend claims atomically (`FOR UPDATE SKIP
LOCKED` holds the row lock from SELECT to COMMIT), so two claims — in any
order with respect to completion — never return the same task: the second
claim always yields a task with a different id.  The SQLite backend
guarantees this only when the two `pick_next_task_for_links` calls do not
interleave (its SELECT and UPDATE are separate statements): for
serialized calls the second pick likewise never returns the first task. -/
theorem claim_C2 :
    (∀ (ts : List Task) (maxA n1 n2 : Nat) (ts1 ts2 : List Task) (t1 t2 : Task),
      pg_pick_next_task_for_links ts maxA n1 = (ts1, some t1) →
      pg_pick_next_task_for_links ts1 maxA n2 = (ts2, some t2) →
      t1.id ≠ t2.id) ∧
    (∀ (ts : List Task) (maxA n1 n2 : Nat) (ts1 ts2 : List Task) (t1 t2 : Task),
      sqlite_pick_next_task_for_links ts maxA n1 = (ts1, some t1) →
      sqlite_pick_next_task_for_links ts1 maxA n2 = (ts2, some t2) →
      t1.id ≠ t2.id) := by
  constructor
  · intro ts maxA n1 n2 ts1 ts2 t1 t2 h1 h2 heq
    unfold pg_pick_next_task_for_links at h1 h2
    cases hs1 : selectMinId (pgLinkEligible maxA) ts with
    | none => rw [hs1] at h1; simp at h1
    | some r1 =>
      rw [hs1] at h1
      simp only [Prod.mk.injEq, Option.some.injEq] at h1
      obtain ⟨hts1, ht1⟩ := h1
      cases hs2 : selectMinId (pgLinkEligible maxA) ts1 with
      | none => rw [hs2] at h2; simp at h2
      | some r2 =>
        rw [hs2] at h2
        simp only [Prod.mk.injEq, Option.some.injEq] at h2
        obtain ⟨-, ht2⟩ := h2
        obtain ⟨hmem, helig⟩ := selectMinId_mem_sat hs2
        rw [← hts1] at hmem
        have hrun : r2.status = Status.running := by
          refine updateRunning_status r2 hmem ?_
          rw [← ht1, ← ht2] at heq
          exact heq.symm
        rcases pgLinkEligible_status helig with h | h <;> rw [hrun] at h <;> cases h
  · intro ts maxA n1 n2 ts1 ts2 t1 t2 h1 h2 heq
    unfold sqlite_pick_next_task_for_links at h1 h2
    cases hs1 : selectMinId (sqliteLinkEligible maxA) ts with
    | none => rw [hs1] at h1; simp at h1
    | some r1 =>
      rw [hs1] at h1
      simp only [Prod.mk.injEq] at h1
      obtain ⟨hts1, ht1⟩ := h1
      have hid1 : t1.id = r1.id := getById_id (hts1 ▸ ht1)
      cases hs2 : selectMinId (sqliteLinkEligible maxA) ts1 with
      | none => rw [hs2] at h2; simp at h2
      | some r2 =>
        rw [hs2] at h2
        simp only [Prod.mk.injEq] at h2
        obtain ⟨hts2, ht2⟩ := h2
        have hid2 : t2.id = r2.id := getById_id (hts2 ▸ ht2)
        obtain ⟨hmem, helig⟩ := selectMinId_mem_sat hs2
        rw [← hts1] at hmem
        have hrun : r2.status = Status.running := by
          refine updateRunning_status r2 hmem ?_
          rw [← hid2, ← heq, hid1]
        rcases sqliteLinkEligible_status helig with h | h <;> rw [hrun] at h <;> cases h

/-- C2 witness: on the two-task sample store, two successive claims (either
backend) return tasks with different ids. -/
theorem claim_C2_witness :
    (((pg_pick_next_task_for_links sampleStore2 15 1).2.getD failedTask).id ≠
      ((pg_pick_next_task_for_links
          (pg_pick_next_task_for_links sampleStore2 15 1).1 15 2).2.getD failedTask).id) ∧
    (((sqlite_pick_next_task_for_links sampleStore2 30 1).2.getD failedTask).id ≠
      ((sqlite_pick_next_task_for_links
          (sqlite_pick_next_task_for_links sampleStore2 30 1).1 30 2).2.getD failedTask).id) :=
  ⟨claim_C2.1 sampleStore2 15 1 2
      (pg_pick_next_task_for_links sampleStore2 15 1).1
      (pg_pick_next_task_for_links
        (pg_pick_next_task_for_links sampleStore2 15 1).1 15 2).1
      ((pg_pick_next_task_for_links sampleStore2 15 1).2.getD failedTask)
      ((pg_pick_next_task_for_links
          (pg_pick_next_task_for_links sampleStore2 15 1).1 15 2).2.getD failedTask)
      (by decide) (by decide),
   claim_C2.2 sampleStore2 30 1 2
      (sqlite_pick_next_task_for_links sampleStore2 30 1).1
      (sqlite_pick_next_task_for_links
        (sqlite_pick_next_task_for_links sampleStore2 30 1).1 30 2).1
      ((sqlite_pick_next_task_for_links sampleStore2 30 1).2.getD failedTask)
      ((sqlite_pick_next_task_for_links
          (sqlite_pick_next_task_for_links sampleStore2 30 1).1 30 2).2.getD failedTask)
      (by decide) (by decide)⟩

/-! ## C4 — retry_task -/

/-- C4 counterexample: the claim says `retry_task` resets attempts to 0 in
both backends.  The SQLite UPDATE (db_sqlite.py:220-222) has no
`attempts=0`: retrying the sample task that has attempts=2 leaves
attempts=2. -/
theorem claim_C4_cex :
    (sqlite_retry_task [failedTask] 1 9).map Task.status = [Status.retry] ∧
    (sqlite_retry_task [failedTask] 1 9).map Task.attempts = [2] ∧
    (2 : Nat) ≠ 0 := by
  decide

/-- C4 (amended): for every existing task id, `retry_task` sets the task's
status to RETRY and clears its error message in both backends, and bumps
`updated_at`; only the Postgres backend also resets the attempts count to 0
— the SQLite backend leaves attempts unchanged.  Other rows are untouched. -/
theorem claim_C4 :
    ∀ (ts : List Task) (i now j : Nat) (t : Task),
      ts[j]? = some t →
      (sqlite_retry_task ts i now).length = ts.length ∧
      (pg_retry_task ts i now).length = ts.length ∧
      (t.id = i →
        (sqlite_retry_task ts i now)[j]? =
          some { t with status := Status.retry, last_error := none, updated_at := now } ∧
        (pg_retry_task ts i now)[j]? =
          some { t with status := Status.retry, attempts := 0, last_error := none,
                        updated_at := now }) ∧
      (t.id ≠ i →
        (sqlite_retry_task ts i now)[j]? = some t ∧
        (pg_retry_task ts i now)[j]? = some t) := by
  intro ts i now j t h
  unfold sqlite_retry_task pg_retry_task
  refine ⟨List.length_map _ _, List.length_map _ _, ?_, ?_⟩
  · intro hid
    rw [List.getElem?_map, List.getElem?_map, h]
    simp only [Option.map_some']
    rw [if_pos hid, if_pos hid]
    exact ⟨rfl, rfl⟩
  · intro hid
    rw [List.getElem?_map, List.getElem?_map, h]
    simp only [Option.map_some']
    rw [if_neg hid, if_neg hid]
    exact ⟨rfl, rfl⟩

/-- C4 witness: retrying the sample errored task (attempts 2): SQLite keeps
attempts at 2, Postgres resets them to 0. -/
theorem claim_C4_witness :
    (sqlite_retry_task [failedTask] 1 9)[0]? =
      some { failedTask with status := Status.retry, last_error := none, updated_at := 9 } ∧
    (pg_retry_task [failedTask] 1 9)[0]? =
      some { failedTask with status := Status.retry, attempts := 0, last_error := none,
                             updated_at := 9 } :=
  (claim_C4 [failedTask] 1 9 0 failedTask rfl).2.2.1 rfl

/-! ## C10 — status-setting operations are unconditional and frame-limited -/

/-- Pointwise effect of the shared UPDATE shape: row `j` is rewritten only
when its id matches, and then only in `status`, `last_error`, `updated_at`. -/
theorem setTaskStatusMsg_getElem {ts : List Task} {j : Nat} {t : Task}
    (st : Status) (msg : Option String) (now i : Nat) (h : ts[j]? = some t) :
    (setTaskStatusMsg st msg now i ts)[j]? =
      some (if t.id = i then { t with status := st, last_error := msg, updated_at := now }
            else t) := by
  unfold setTaskStatusMsg
  rw [List.getElem?_map, h]
  rfl

/-- C10: `set_task_links_done`, `set_task_waitcaptcha` and `set_task_error`
(both backends) are unconditional — whatever the row's current status,
including DONE or WAITCAPTCHA — and frame-limited: on the matching row they
overwrite exactly `status`, `last_error` and `updated_at` (every other
column is carried over from the old row by the record update), and every
other row of the table is returned unchanged; the table length is
preserved. -/
theorem claim_C10 :
    ∀ (ts : List Task) (i now inserted j : Nat) (err worker : String) (t : Task),
      ts[j]? = some t →
      (sqlite_set_task_links_done ts i inserted now).length = ts.length ∧
      (sqlite_set_task_waitcaptcha ts i err worker now).length = ts.length ∧
      (sqlite_set_task_error ts i err worker now).length = ts.length ∧
      (pg_set_task_links_done ts i inserted now).length = ts.length ∧
      (pg_set_task_waitcaptcha ts i err worker now).length = ts.length ∧
      (pg_set_task_error ts i err worker now).length = ts.length ∧
      (t.id = i →
        (sqlite_set_task_links_done ts i inserted now)[j]? =
          some { t with status := Status.done,
                        last_error := some ("inserted_links=" ++ toString inserted),
                        updated_at := now } ∧
        (sqlite_set_task_waitcaptcha ts i err worker now)[j]? =
          some { t with status := Status.waitcaptcha,
                        last_error := some ((sqliteTagMsg worker err).take 2000),
                        updated_at := now } ∧
        (sqlite_set_task_error ts i err worker now)[j]? =
          some { t with status := Status.error,
                        last_error := some ((sqliteTagMsg worker err).take 2000),
                        updated_at := now } ∧
        (pg_set_task_links_done ts i inserted now)[j]? =
          some { t with status := Status.done,
                        last_error := some ("inserted_links=" ++ toString inserted),
                        updated_at := now } ∧
        (pg_set_task_waitcaptcha ts i err worker now)[j]? =
          some { t with status := Status.waitcaptcha,
                        last_error := some ((pgTagMsg worker err).take 2000),
                        updated_at := now } ∧
        (pg_set_task_error ts i err worker now)[j]? =
          some { t with status := Status.error,
                        last_error := some ((pgTagMsg worker err).take 2000),
                        updated_at := now }) ∧
      (t.id ≠ i →
        (sqlite_set_task_links_done ts i inserted now)[j]? = some t ∧
        (sqlite_set_task_waitcaptcha ts i err worker now)[j]? = some t ∧
        (sqlite_set_task_error ts i err worker now)[j]? = some t ∧
        (pg_set_task_links_done ts i inserted now)[j]? = some t ∧
        (pg_set_task_waitcaptcha ts i err worker now)[j]? = some t ∧
        (pg_set_task_error ts i err worker now)[j]? = some t) := by
  intro ts i now inserted j err worker t h
  unfold sqlite_set_task_links_done sqlite_set_task_waitcaptcha sqlite_set_task_error
    pg_set_task_links_done pg_set_task_waitcaptcha pg_set_task_error
  refine ⟨List.length_map _ _, List.length_map _ _, List.length_map _ _,
          List.length_map _ _, List.length_map _ _, List.length_map _ _, ?_, ?_⟩
  · intro hid
    simp only [setTaskStatusMsg_getElem _ _ _ _ h, if_pos hid]
    exact ⟨trivial, trivial, trivial, trivial, trivial, trivial⟩
  · intro hid
    simp only [setTaskStatusMsg_getElem _ _ _ _ h, if_neg hid]
    exact ⟨trivial, trivial, trivial, trivial, trivial, trivial⟩

/-- C10 witness: on a two-row store whose first task is already DONE, the
error transition still overwrites the DONE row (status, message, timestamp
only) and leaves the other row untouched. -/
theorem claim_C10_witness :
    (sqlite_set_task_error [doneTask, otherTask] 1 "boom" "links" 9)[0]? =
      some { doneTask with status := Status.error,
                           last_error := some ((sqliteTagMsg "links" "boom").take 2000),
                           updated_at := 9 } ∧
    (sqlite_set_task_error [doneTask, otherTask] 1 "boom" "links" 9)[1]? = some otherTask :=
  ⟨((claim_C10 [doneTask, otherTask] 1 9 7 0 "boom" "links" doneTask rfl).2.2.2.2.2.2.1
      rfl).2.2.1,
   ((claim_C10 [doneTask, otherTask] 1 9 7 1 "boom" "links" otherTask rfl).2.2.2.2.2.2.2
      (by decide)).2.2.1⟩

/-! ## C3 — insert_links -/

/-- Each URL iteration either leaves the accumulator unchanged (skipped or
conflict-ignored) or appends exactly one row and counts it. -/
theorem insertLinkStep_cases (task : Task) (m : String) (acc : List Link × Nat) (u : String) :
    insertLinkStep task m acc u = acc ∨
    (org_id_from_url u ≠ "" ∧ hasOrgId acc.1 (org_id_from_url u) = false ∧
      insertLinkStep task m acc u =
        (acc.1 ++ [mkLink task u (org_id_from_url u) m], acc.2 + 1)) := by
  unfold insertLinkStep
  by_cases h1 : org_id_from_url u = ""
  · rw [if_pos h1]; exact Or.inl rfl
  · rw [if_neg h1]
    by_cases h2 : hasOrgId acc.1 (org_id_from_url u) = true
    · rw [if_pos h2]; exact Or.inl rfl
    · rw [if_neg h2]; exact Or.inr ⟨h1, by simpa using h2, rfl⟩

/-- Over a whole URL batch, table growth equals count growth. -/
theorem insert_links_len_aux (task : Task) (m : String) :
    ∀ (urls : List String) (acc : List Link × Nat),
      (urls.foldl (insertLinkStep task m) acc).1.length + acc.2 =
        acc.1.length + (urls.foldl (insertLinkStep task m) acc).2 := by
  intro urls
  induction urls with
  | nil => intro acc; rfl
  | cons u us ih =>
    intro acc
    rw [List.foldl_cons]
    rcases insertLinkStep_cases task m acc u with h | ⟨-, -, h⟩
    · rw [h]; exact ih acc
    · rw [h]
      have h2 := ih (acc.1 ++ [mkLink task u (org_id_from_url u) m], acc.2 + 1)
      simp only [List.length_append, List.length_cons, List.length_nil] at h2 ⊢
      omega

/-- An `org_id` present in the table stays present through one iteration. -/
theorem hasOrgId_step (task : Task) (m : String) (acc : List Link × Nat) (v oid : String)
    (h : hasOrgId acc.1 oid = true) :
    hasOrgId (insertLinkStep task m acc v).1 oid = true := by
  rcases insertLinkStep_cases task m acc v with he | ⟨-, -, he⟩
  · rw [he]; exact h
  · rw [he]
    unfold hasOrgId at h ⊢
    simp [List.any_append, h]

/-- An `org_id` present in the table stays present through a whole batch. -/
theorem hasOrgId_foldl (task : Task) (m : String) :
    ∀ (urls : List String) (acc : List Link × Nat) (oid : String),
      hasOrgId acc.1 oid = true →
      hasOrgId (urls.foldl (insertLinkStep task m) acc).1 oid = true := by
  intro urls
  induction urls with
  | nil => intro acc oid h; exact h
  | cons u us ih =>
    intro acc oid h
    rw [List.foldl_cons]
    exact ih _ _ (hasOrgId_step task m acc u oid h)

/-- After a batch containing a URL with a derivable id, that id is in the
table. -/
theorem insert_links_present (task : Task) (m : String) :
    ∀ (urls : List String) (acc : List Link × Nat) (u : String),
      u ∈ urls → org_id_from_url u ≠ "" →
      hasOrgId (urls.foldl (insertLinkStep task m) acc).1 (org_id_from_url u) = true := by
  intro urls
  induction urls with
  | nil => intro acc u h; cases h
  | cons v vs ih =>
    intro acc u hmem hne
    rw [List.foldl_cons]
    rcases List.mem_cons.mp hmem with rfl | hmem2
    · apply hasOrgId_foldl
      unfold insertLinkStep
      rw [if_neg hne]
      by_cases h2 : hasOrgId acc.1 (org_id_from_url u) = true
      · rw [if_pos h2]; exact h2
      · rw [if_neg h2]
        unfold hasOrgId
        simp [List.any_append, mkLink]
    · exact ih _ _ hmem2 hne

/-- The per-id row-count invariant `count = (1 if present else 0)` is
preserved by a whole batch: conflict-ignore never creates a second row for
an id. -/
theorem insert_links_countP (task : Task) (m oid : String) :
    ∀ (urls : List String) (acc : List Link × Nat),
      acc.1.countP (fun l => l.org_id == oid) = (if hasOrgId acc.1 oid then 1 else 0) →
      (urls.foldl (insertLinkStep task m) acc).1.countP (fun l => l.org_id == oid) =
        (if hasOrgId (urls.foldl (insertLinkStep task m) acc).1 oid then 1 else 0) := by
  intro urls
  induction urls with
  | nil => intro acc h; exact h
  | cons u us ih =>
    intro acc h
    rw [List.foldl_cons]
    apply ih
    rcases insertLinkStep_cases task m acc u with he | ⟨hne, hnot, he⟩
    · rw [he]; exact h
    · rw [he]
      by_cases hx : org_id_from_url u = oid
      · subst hx
        rw [hnot] at h
        simp only [if_false, Bool.false_eq_true] at h
        unfold hasOrgId at hnot ⊢
        simp [List.countP_append, List.any_append, mkLink, h, hnot]
      · have hxb : ((mkLink task u (org_id_from_url u) m).org_id == oid) = false := by
          simp [mkLink, hx]
        unfold hasOrgId at h ⊢
        simp only [List.countP_append, List.any_append, List.any_cons, List.any_nil,
          List.countP_cons, List.countP_nil, hxb, Bool.or_false, Bool.false_or] at h ⊢
        simpa using h

/-- A URL whose id is already in the table at the start of a batch is
skipped outright: the whole call behaves as if the URL were absent. -/
theorem insert_links_dup_noop (ls : List Link) (task : Task) (u : String) (urls : List String)
    (m : String) (h1 : org_id_from_url u ≠ "") (h2 : hasOrgId ls (org_id_from_url u) = true) :
    insert_links ls task (u :: urls) m = insert_links ls task urls m := by
  unfold insert_links
  rw [List.foldl_cons]
  have hstep : insertLinkStep task m (ls, 0) u = (ls, 0) := by
    unfold insertLinkStep
    rw [if_neg h1, if_pos h2]
  rw [hstep]

/-- C3: in both backends' `insert_links`, (1) the table grows by exactly the
returned count; (2) a URL whose organization id cannot be derived is a
no-op wherever it occurs in the batch — nothing inserted, nothing counted;
(3) a URL whose id is already in the table is a no-op; (4) the same holds
across calls (same or different task): once a URL's id is inserted, a later
call re-deriving that id is a no-op; (5) under the per-id uniqueness
invariant, after a batch containing a URL with derivable id, exactly one
Link row carries that id. -/
theorem claim_C3 :
    (∀ (ls : List Link) (task : Task) (urls : List String) (m : String),
      (insert_links ls task urls m).1.length = ls.length + (insert_links ls task urls m).2) ∧
    (∀ (ls : List Link) (task : Task) (us vs : List String) (u m : String),
      org_id_from_url u = "" →
      insert_links ls task (us ++ u :: vs) m = insert_links ls task (us ++ vs) m) ∧
    (∀ (ls : List Link) (task : Task) (u : String) (urls : List String) (m : String),
      org_id_from_url u ≠ "" → hasOrgId ls (org_id_from_url u) = true →
      insert_links ls task (u :: urls) m = insert_links ls task urls m) ∧
    (∀ (ls : List Link) (task task2 : Task) (urls rest : List String) (u v m m2 : String),
      u ∈ urls → org_id_from_url v = org_id_from_url u → org_id_from_url u ≠ "" →
      insert_links (insert_links ls task urls m).1 task2 (v :: rest) m2 =
        insert_links (insert_links ls task urls m).1 task2 rest m2) ∧
    (∀ (ls : List Link) (task : Task) (urls : List String) (u m : String),
      u ∈ urls → org_id_from_url u ≠ "" →
      ls.countP (fun l => l.org_id == org_id_from_url u) =
        (if hasOrgId ls (org_id_from_url u) then 1 else 0) →
      (insert_links ls task urls m).1.countP (fun l => l.org_id == org_id_from_url u) = 1) := by
  refine ⟨?_, ?_, ?_, ?_, ?_⟩
  · intro ls task urls m
    have h := insert_links_len_aux task m urls (ls, 0)
    unfold insert_links
    simpa using h
  · intro ls task us vs u m h
    unfold insert_links
    rw [List.foldl_append, List.foldl_append, List.foldl_cons]
    have hstep : insertLinkStep task m (us.foldl (insertLinkStep task m) (ls, 0)) u =
        us.foldl (insertLinkStep task m) (ls, 0) := by
      unfold insertLinkStep
      rw [if_pos h]
    rw [hstep]
  · intro ls task u urls m h1 h2
    exact insert_links_dup_noop ls task u urls m h1 h2
  · intro ls task task2 urls rest u v m m2 hmem hvu hne
    have hpres : hasOrgId (insert_links ls task urls m).1 (org_id_from_url v) = true := by
      rw [hvu]
      exact insert_links_present task m urls (ls, 0) u hmem hne
    exact insert_links_dup_noop _ task2 v rest m2 (hvu ▸ hne) hpres
  · intro ls task urls u m hmem hne hinv
    have h1 := insert_links_countP task m (org_id_from_url u) urls (ls, 0) hinv
    have h2 := insert_links_present task m urls (ls, 0) u hmem hne
    unfold insert_links
    rw [h1, h2]
    rfl

/-- C3 witness: a concrete batch with one good URL, one underivable URL and
one duplicate, starting from an empty table. -/
theorem claim_C3_witness :
    ((insert_links [] failedTask ["https://yandex.by/maps/org/cafe/111/",
        "https://yandex.by/maps/org/cafe/111/"] "LINKS_SEARCH").1.length =
      ([] : List Link).length +
        (insert_links [] failedTask ["https://yandex.by/maps/org/cafe/111/",
          "https://yandex.by/maps/org/cafe/111/"] "LINKS_SEARCH").2) ∧
    (insert_links [] failedTask (["https://yandex.by/maps/org/cafe/111/"] ++
        "https://yandex.by/maps/org/some-name/" :: []) "LINKS_SEARCH" =
      insert_links [] failedTask (["https://yandex.by/maps/org/cafe/111/"] ++ []) "LINKS_SEARCH") ∧
    (insert_links (insert_links [] failedTask ["https://yandex.by/maps/org/cafe/111/"]
          "LINKS_SEARCH").1 otherTask
        ("https://yandex.by/maps/org/cafe/111/" :: []) "LINKS_SEARCH" =
      insert_links (insert_links [] failedTask ["https://yandex.by/maps/org/cafe/111/"]
          "LINKS_SEARCH").1 otherTask [] "LINKS_SEARCH") ∧
    ((insert_links [] failedTask ["https://yandex.by/maps/org/cafe/111/",
        "https://yandex.by/maps/org/cafe/111/"] "LINKS_SEARCH").1.countP
      (fun l => l.org_id == org_id_from_url "https://yandex.by/maps/org/cafe/111/") = 1) :=
  ⟨claim_C3.1 [] failedTask
      ["https://yandex.by/maps/org/cafe/111/", "https://yandex.by/maps/org/cafe/111/"]
      "LINKS_SEARCH",
   claim_C3.2.1 [] failedTask ["https://yandex.by/maps/org/cafe/111/"] []
      "https://yandex.by/maps/org/some-name/" "LINKS_SEARCH" (by decide),
   claim_C3.2.2.2.1 [] failedTask otherTask ["https://yandex.by/maps/org/cafe/111/"] []
      "https://yandex.by/maps/org/cafe/111/" "https://yandex.by/maps/org/cafe/111/"
      "LINKS_SEARCH" "LINKS_SEARCH" (by decide) rfl (by decide),
   claim_C3.2.2.2.2 [] failedTask
      ["https://yandex.by/maps/org/cafe/111/", "https://yandex.by/maps/org/cafe/111/"]
      "https://yandex.by/maps/org/cafe/111/" "LINKS_SEARCH" (by decide) (by decide) (by decide)⟩

/-! ## C9 — upsert_org -/

/-- Pushing `upsert_org` past a non-matching head row. -/
theorem upsert_cons_ne (o : Org) (os : List Org) (f : OrgFields) (t : Nat)
    (h : o.org_id ≠ f.org_id) :
    upsert_org (o :: os) f t = o :: upsert_org os f t := by
  unfold upsert_org
  have hb : (o.org_id == f.org_id) = false := by simp [h]
  simp only [List.any_cons, hb, Bool.false_or]
  by_cases h2 : os.any (fun o => o.org_id == f.org_id) = true
  · rw [if_pos h2, if_pos h2]
    simp only [List.map_cons]
    rw [if_neg h]
  · rw [if_neg h2, if_neg h2]
    rfl

/-- `upsert_org` on a matching head row rewrites it in place. -/
theorem upsert_cons_eq (o : Org) (os : List Org) (f : OrgFields) (t : Nat)
    (h : o.org_id = f.org_id) :
    upsert_org (o :: os) f t =
      mkOrg f t :: os.map (fun o => if o.org_id = f.org_id then mkOrg f t else o) := by
  unfold upsert_org
  have hb : (o.org_id == f.org_id) = true := by simp [h]
  simp only [List.any_cons, hb, Bool.true_or, if_true]
  simp only [List.map_cons]
  rw [if_pos h]

/-- Applying `upsert_org` twice with the same fields equals applying it once
at the later time: the second write only refreshes the timestamp. -/
theorem upsert_org_idem (os : List Org) (f : OrgFields) (t1 t2 : Nat) :
    upsert_org (upsert_org os f t1) f t2 = upsert_org os f t2 := by
  induction os with
  | nil => simp [upsert_org, mkOrg]
  | cons o os ih =>
    by_cases h : o.org_id = f.org_id
    · rw [upsert_cons_eq o os f t1 h, upsert_cons_eq o os f t2 h,
        upsert_cons_eq (mkOrg f t1) _ f t2 (by simp [mkOrg])]
      congr 1
      rw [List.map_map]
      apply List.map_congr_left
      intro a _
      by_cases h2 : a.org_id = f.org_id
      · simp [Function.comp, h2, mkOrg]
      · simp [Function.comp, h2]
    · rw [upsert_cons_ne o os f t1 h, upsert_cons_ne o _ f t2 h, upsert_cons_ne o os f t2 h, ih]

/-- After `upsert_org`, the row found for the id carries exactly the written
fields and timestamp (latest write wins). -/
theorem upsert_org_find (os : List Org) (f : OrgFields) (t : Nat) :
    findOrg (upsert_org os f t) f.org_id = some (mkOrg f t) := by
  induction os with
  | nil => simp [upsert_org, findOrg, mkOrg, orgIdIs, List.find?]
  | cons o os ih =>
    by_cases h : o.org_id = f.org_id
    · rw [upsert_cons_eq o os f t h]
      unfold findOrg
      rw [List.find?_cons_of_pos _ (by simp [orgIdIs, mkOrg])]
    · rw [upsert_cons_ne o os f t h]
      unfold findOrg at ih ⊢
      rw [List.find?_cons_of_neg _ (by simp [orgIdIs, h])]
      exact ih

/-- Under the primary-key invariant (at most one row per id), `upsert_org`
leaves exactly one row with the written id. -/
theorem upsert_org_count (os : List Org) (f : OrgFields) (t : Nat)
    (h : os.countP (orgIdIs f.org_id) ≤ 1) :
    (upsert_org os f t).countP (orgIdIs f.org_id) = 1 := by
  induction os with
  | nil => simp [upsert_org, mkOrg, orgIdIs]
  | cons o os ih =>
    by_cases hh : o.org_id = f.org_id
    · rw [upsert_cons_eq o os f t hh]
      have hcnt : os.countP (orgIdIs f.org_id) = 0 := by
        rw [List.countP_cons] at h
        simp only [orgIdIs, hh, beq_self_eq_true, if_true] at h
        omega
      have h0 : ∀ a ∈ os, ¬(orgIdIs f.org_id a = true) := List.countP_eq_zero.mp hcnt
      rw [List.countP_cons]
      have hmapped : (os.map fun o => if o.org_id = f.org_id then mkOrg f t else o).countP
          (orgIdIs f.org_id) = 0 := by
        apply List.countP_eq_zero.mpr
        intro b hb
        rcases List.mem_map.mp hb with ⟨a, ha, rfl⟩
        have hane : a.org_id ≠ f.org_id := by
          intro he
          exact h0 a ha (by simp [orgIdIs, he])
        rw [if_neg hane]
        simp [orgIdIs, hane]
      rw [hmapped]
      simp [orgIdIs, mkOrg]
    · rw [upsert_cons_ne o os f t hh]
      rw [List.countP_cons]
      have hb : orgIdIs f.org_id o = false := by simp [orgIdIs, hh]
      rw [hb]
      simp only [Bool.false_eq_true, if_false, Nat.add_zero]
      apply ih
      rw [List.countP_cons, hb] at h
      simpa using h

/-- C9: `upsert_org` is idempotent up to the timestamp — re-applying the
same fields equals a single application at the later time; the stored row
for the id always carries exactly the last-written descriptive fields
(latest write wins over any previous enrichment); and under the primary-key
invariant exactly one row per organization id remains. -/
theorem claim_C9 :
    (∀ (os : List Org) (f : OrgFields) (t1 t2 : Nat),
      upsert_org (upsert_org os f t1) f t2 = upsert_org os f t2) ∧
    (∀ (os : List Org) (f : OrgFields) (t : Nat),
      findOrg (upsert_org os f t) f.org_id = some (mkOrg f t)) ∧
    (∀ (os : List Org) (f : OrgFields) (t : Nat),
      os.countP (orgIdIs f.org_id) ≤ 1 →
      (upsert_org os f t).countP (orgIdIs f.org_id) = 1) :=
  ⟨upsert_org_idem, upsert_org_find, fun os f t h => upsert_org_count os f t h⟩

/-- C9 witness: upserting the sample organization into an empty table (and
once more on top of a prior enrichment with different fields). -/
theorem claim_C9_witness :
    (upsert_org (upsert_org [] sampleOrgFields 4) sampleOrgFields 5 =
      upsert_org [] sampleOrgFields 5) ∧
    findOrg (upsert_org (upsert_org [] { sampleOrgFields with name := "Old" } 3)
        sampleOrgFields 5) sampleOrgFields.org_id = some (mkOrg sampleOrgFields 5) ∧
    (upsert_org [] sampleOrgFields 5).countP (orgIdIs sampleOrgFields.org_id) = 1 :=
  ⟨claim_C9.1 [] sampleOrgFields 4 5,
   claim_C9.2.1 (upsert_org [] { sampleOrgFields with name := "Old" } 3) sampleOrgFields 5,
   claim_C9.2.2 [] sampleOrgFields 5 (by decide)⟩

/-! ## C7 / C8 — harvesting termination and captcha abort -/

/-- One unfolding of the harvesting loop while fuel remains. -/
theorem collectAux_step (s : HarvestSession) (maxIdle fuel pass idle lastCnt : Nat)
    (links : List String) :
    collectAux s maxIdle (fuel + 1) pass idle lastCnt links =
      if s.captcha pass then Except.error ()
      else if (addAll links (s.anchors pass)).length = lastCnt then
        if maxIdle ≤ idle + 1 then Except.ok (addAll links (s.anchors pass), pass + 1)
        else collectAux s maxIdle fuel (pass + 1) (idle + 1) lastCnt
          (addAll links (s.anchors pass))
      else if maxIdle ≤ 0 then Except.ok (addAll links (s.anchors pass), pass + 1)
      else collectAux s maxIdle fuel (pass + 1) 0 (addAll links (s.anchors pass)).length
        (addAll links (s.anchors pass)) :=
  rfl

/-- C7: with idle threshold 2, a captcha-free session whose accumulated
anchor set grows on each of the first three passes and stops growing from
pass 3 on makes the loop stop after pass 5 (two idle passes after the third
growth pass, well inside the 4000-pass hard cap), returning exactly the set
accumulated at pass 3. -/
theorem claim_C7 (s : HarvestSession)
    (hc : ∀ n, n ≤ 4 → s.captcha n = false)
    (h1 : (harvestAcc s 1).length ≠ 0)
    (h2 : (harvestAcc s 2).length ≠ (harvestAcc s 1).length)
    (h3 : (harvestAcc s 3).length ≠ (harvestAcc s 2).length)
    (h4 : addAll (harvestAcc s 3) (s.anchors 3) = harvestAcc s 3)
    (h5 : addAll (harvestAcc s 3) (s.anchors 4) = harvestAcc s 3) :
    collect_links_from_list s 2 = Except.ok (harvestAcc s 3, 5) := by
  have s5 : ∀ f : Nat, collectAux s 2 (f + 1) 4 1 (harvestAcc s 3).length (harvestAcc s 3) =
      Except.ok (harvestAcc s 3, 5) := by
    intro f
    rw [collectAux_step, hc 4 (by norm_num)]
    simp only [Bool.false_eq_true, if_false]
    rw [h5, if_pos rfl, if_pos (show (2 : Nat) ≤ 1 + 1 from by norm_num)]
  have s4 : ∀ f : Nat, collectAux s 2 (f + 2) 3 0 (harvestAcc s 3).length (harvestAcc s 3) =
      Except.ok (harvestAcc s 3, 5) := by
    intro f
    rw [show f + 2 = (f + 1) + 1 from rfl, collectAux_step, hc 3 (by norm_num)]
    simp only [Bool.false_eq_true, if_false]
    rw [h4, if_pos rfl, if_neg (show ¬ ((2 : Nat) ≤ 0 + 1) from by norm_num)]
    exact s5 f
  have s3 : ∀ f : Nat, collectAux s 2 (f + 3) 2 0 (harvestAcc s 2).length (harvestAcc s 2) =
      Except.ok (harvestAcc s 3, 5) := by
    intro f
    rw [show f + 3 = (f + 2) + 1 from rfl, collectAux_step, hc 2 (by norm_num)]
    simp only [Bool.false_eq_true, if_false]
    rw [show addAll (harvestAcc s 2) (s.anchors 2) = harvestAcc s 3 from rfl, if_neg h3,
      if_neg (show ¬ ((2 : Nat) ≤ 0) from by norm_num)]
    exact s4 f
  have s2 : ∀ f : Nat, collectAux s 2 (f + 4) 1 0 (harvestAcc s 1).length (harvestAcc s 1) =
      Except.ok (harvestAcc s 3, 5) := by
    intro f
    rw [show f + 4 = (f + 3) + 1 from rfl, collectAux_step, hc 1 (by norm_num)]
    simp only [Bool.false_eq_true, if_false]
    rw [show addAll (harvestAcc s 1) (s.anchors 1) = harvestAcc s 2 from rfl, if_neg h2,
      if_neg (show ¬ ((2 : Nat) ≤ 0) from by norm_num)]
    exact s3 f
  have s1 : ∀ f : Nat, collectAux s 2 (f + 5) 0 0 0 [] = Except.ok (harvestAcc s 3, 5) := by
    intro f
    rw [show f + 5 = (f + 4) + 1 from rfl, collectAux_step, hc 0 (by norm_num)]
    simp only [Bool.false_eq_true, if_false]
    rw [show addAll [] (s.anchors 0) = harvestAcc s 1 from rfl, if_neg h1,
      if_neg (show ¬ ((2 : Nat) ≤ 0) from by norm_num)]
    exact s2 f
  show collectAux s 2 4000 0 0 0 [] = Except.ok (harvestAcc s 3, 5)
  exact s1 3995

/-- C7 witness: the mocked idle session (growth on passes 0-2, constant
thereafter) stops after 5 passes with exactly the pass-3 set. -/
theorem claim_C7_witness :
    collect_links_from_list idleDemoSession 2 = Except.ok (harvestAcc idleDemoSession 3, 5) :=
  claim_C7 idleDemoSession (fun _ _ => rfl) (by decide) (by decide) (by decide) (by decide)
    (by decide)

/-- C8: if the captcha indicator appears on pass 2 — after two completed
scroll passes — the loop (at its default idle threshold 12) raises the
captcha error at once; the result carries no link list at all. -/
theorem claim_C8 (s : HarvestSession)
    (hc0 : s.captcha 0 = false) (hc1 : s.captcha 1 = false) (hc2 : s.captcha 2 = true) :
    collect_links_from_list s 12 = Except.error () := by
  have hp2 : ∀ (f idle lastCnt : Nat) (links : List String),
      collectAux s 12 (f + 1) 2 idle lastCnt links = Except.error () := by
    intro f idle lastCnt links
    rw [collectAux_step, hc2, if_pos rfl]
  have hp1 : ∀ (f idle lastCnt : Nat) (links : List String), idle ≤ 1 →
      collectAux s 12 (f + 2) 1 idle lastCnt links = Except.error () := by
    intro f idle lastCnt links hi
    rw [show f + 2 = (f + 1) + 1 from rfl, collectAux_step, hc1]
    simp only [Bool.false_eq_true, if_false]
    rw [if_neg (show ¬ (12 ≤ idle + 1) from by omega),
      if_neg (show ¬ ((12 : Nat) ≤ 0) from by norm_num)]
    split
    · exact hp2 f _ _ _
    · exact hp2 f _ _ _
  have hp0 : ∀ (f lastCnt : Nat) (links : List String),
      collectAux s 12 (f + 3) 0 0 lastCnt links = Except.error () := by
    intro f lastCnt links
    rw [show f + 3 = (f + 2) + 1 from rfl, collectAux_step, hc0]
    simp only [Bool.false_eq_true, if_false]
    rw [if_neg (show ¬ ((12 : Nat) ≤ 0 + 1) from by norm_num),
      if_neg (show ¬ ((12 : Nat) ≤ 0) from by norm_num)]
    split
    · exact hp1 f _ _ _ (by norm_num)
    · exact hp1 f _ _ _ (by norm_num)
  show collectAux s 12 4000 0 0 0 [] = Except.error ()
  exact hp0 3997 0 []

/-- C8 witness: the mocked session that shows a captcha on pass 2 makes the
harvest abort with the captcha error. -/
theorem claim_C8_witness :
    collect_links_from_list captchaDemoSession 12 = Except.error () :=
  claim_C8 captchaDemoSession rfl rfl rfl

end ParserMapsPro
